import Mathlib

/-
Verification development for the fractal-garden growth/lifecycle simulation
core.  The Python source (environment.py, stem.py, plant_factory.py) is
shallowly embedded here: Python floats are modelled as rationals, Python
division is modelled by an optional division that returns none exactly when
Python would raise ZeroDivisionError, and every call to the global random
generator is modelled by an explicit oracle value passed in as an argument.
Trigonometric functions on floats are modelled by an abstract oracle
structure Trig, since no claim depends on a concrete value of cosine or sine.
-/

namespace FractalGarden

/-- Division as Python performs it: none models a ZeroDivisionError. -/
def qdiv? (a b : ℚ) : Option ℚ :=
  if b = 0 then none else some (a / b)

/-- Oracle for float cosine and sine; the embedding is parametric in it. -/
structure Trig where
  cos : ℚ → ℚ
  sin : ℚ → ℚ

/-- Rational value of the Python float math.pi divided by 2, the initial
angle of the main stem in StemSystem. -/
def halfPi : ℚ := 884279719003555 / 562949953421312

/-! ## environment.py -/

/-- EnvironmentalFactors from environment.py. -/
structure EnvironmentalFactors where
  water_level : ℚ
  light_level : ℚ
  temperature : ℚ
  humidity : ℚ
  soil_quality : ℚ
deriving DecidableEq

/-- GrowthRequirements from environment.py. -/
structure GrowthRequirements where
  optimal_water : ℚ × ℚ
  optimal_light : ℚ × ℚ
  optimal_temp : ℚ × ℚ
  optimal_humidity : ℚ × ℚ
  drought_tolerance : ℚ
  heat_tolerance : ℚ
deriving DecidableEq

/-- FloweringCharacteristics from plant_factory.py. -/
structure FloweringCharacteristics where
  min_maturity : ℚ
  chance : ℚ
  min_delay : ℕ
  max_delay : ℕ
  bloom_duration : ℕ
deriving DecidableEq

/-- GrowthCharacteristics as defined in plant_factory.py (the revision that
is actually used at runtime; it shadows the one in environment.py and adds
the flowering block). -/
structure GrowthCharacteristics where
  max_height : ℚ
  growth_rate : ℚ
  lifespan : ℕ
  flowering : FloweringCharacteristics
deriving DecidableEq

/-- Container for the stress_factors dict of EnvironmentSystem, which always
holds exactly the four keys water, light, temperature and humidity. -/
structure StressFactors where
  water : ℚ
  light : ℚ
  temperature : ℚ
  humidity : ℚ
deriving DecidableEq

/-- Sum of the values of the stress_factors dict. -/
def StressFactors.total (s : StressFactors) : ℚ :=
  s.water + s.light + s.temperature + s.humidity

/-- Mutable state of EnvironmentSystem from environment.py. -/
structure EnvironmentSystem where
  requirements : GrowthRequirements
  characteristics : GrowthCharacteristics
  stress_factors : StressFactors
  overall_health : ℚ
  growth_rate_modifier : ℚ
deriving DecidableEq

/-- Constructor EnvironmentSystem.__init__. -/
def EnvironmentSystem.init (requirements : GrowthRequirements)
    (characteristics : GrowthCharacteristics) : EnvironmentSystem where
  requirements := requirements
  characteristics := characteristics
  stress_factors := ⟨0, 0, 0, 0⟩
  overall_health := 100
  growth_rate_modifier := 1

/-- EnvironmentSystem._calculate_water_stress.  The deficit branch divides by
min_water and the excess branch divides by 100 - max_water, with no guard
against a zero divisor and no clamping of the result. -/
def EnvironmentSystem.calculateWaterStress (s : EnvironmentSystem)
    (water_level : ℚ) : Option ℚ :=
  let min_water := s.requirements.optimal_water.1
  let max_water := s.requirements.optimal_water.2
  if water_level < min_water then
    (qdiv? (min_water - water_level) min_water).map
      (fun deficit => deficit * (1 - s.requirements.drought_tolerance))
  else if water_level > max_water then
    qdiv? (water_level - max_water) (100 - max_water)
  else
    some 0

/-- EnvironmentSystem._calculate_light_stress. -/
def EnvironmentSystem.calculateLightStress (s : EnvironmentSystem)
    (light_level : ℚ) : Option ℚ :=
  let min_light := s.requirements.optimal_light.1
  let max_light := s.requirements.optimal_light.2
  if light_level < min_light then
    qdiv? (min_light - light_level) min_light
  else if light_level > max_light then
    qdiv? (light_level - max_light) (100 - max_light)
  else
    some 0

/-- EnvironmentSystem._calculate_temperature_stress.  Note that the excess
branch divides by max_temp itself, not by 100 - max_temp. -/
def EnvironmentSystem.calculateTemperatureStress (s : EnvironmentSystem)
    (temperature : ℚ) : Option ℚ :=
  let min_temp := s.requirements.optimal_temp.1
  let max_temp := s.requirements.optimal_temp.2
  if temperature < min_temp then
    qdiv? (min_temp - temperature) min_temp
  else if temperature > max_temp then
    (qdiv? (temperature - max_temp) max_temp).map
      (fun excess => excess * (1 - s.requirements.heat_tolerance))
  else
    some 0

/-- EnvironmentSystem._calculate_humidity_stress. -/
def EnvironmentSystem.calculateHumidityStress (s : EnvironmentSystem)
    (humidity : ℚ) : Option ℚ :=
  let min_humidity := s.requirements.optimal_humidity.1
  let max_humidity := s.requirements.optimal_humidity.2
  if humidity < min_humidity then
    qdiv? (min_humidity - humidity) min_humidity
  else if humidity > max_humidity then
    qdiv? (humidity - max_humidity) (100 - max_humidity)
  else
    some 0

/-- EnvironmentSystem._update_health.  The stress_factors dict has length 4,
so avg_stress is the sum of the four per-factor stresses divided by 4. -/
def EnvironmentSystem.updateHealth (s : EnvironmentSystem)
    (soil_quality : ℚ) : EnvironmentSystem :=
  let avg_stress := s.stress_factors.total / 4
  let recovery_rate := (1 / 10 : ℚ) * (soil_quality / 100)
  if avg_stress > 0 then
    { s with overall_health := max 0 (s.overall_health - avg_stress * 2) }
  else
    { s with overall_health := min 100 (s.overall_health + recovery_rate) }

/-- EnvironmentSystem._update_growth_rate.  The stress modifier is
1 - (sum of stresses) / 4, which is 1 minus the mean stress. -/
def EnvironmentSystem.updateGrowthRate (s : EnvironmentSystem) :
    EnvironmentSystem :=
  let base_rate := s.overall_health / 100
  let stress_modifier := 1 - s.stress_factors.total / 4
  { s with growth_rate_modifier := max 0 (base_rate * stress_modifier) }

/-- EnvironmentSystem.update.  Returns none when one of the per-factor
stress computations raises ZeroDivisionError in Python. -/
def EnvironmentSystem.update (s : EnvironmentSystem)
    (environment : EnvironmentalFactors) : Option EnvironmentSystem := do
  let w ← s.calculateWaterStress environment.water_level
  let l ← s.calculateLightStress environment.light_level
  let t ← s.calculateTemperatureStress environment.temperature
  let h ← s.calculateHumidityStress environment.humidity
  let s := { s with stress_factors := ⟨w, l, t, h⟩ }
  let s := s.updateHealth environment.soil_quality
  some s.updateGrowthRate

/-! ## Plant._calculate_stress (plant_factory.py, lines 140 to 154) -/

/-- Plant._calculate_stress.  The result is clamped above by 1 via min, and
the division is by optimal_range min (deficit) or 100 - optimal_range max
(excess), unguarded against zero. -/
def plantCalculateStress (value : ℚ) (optimal_range : ℚ × ℚ) : Option ℚ :=
  if optimal_range.1 ≤ value ∧ value ≤ optimal_range.2 then
    some 0
  else if value < optimal_range.1 then
    (qdiv? (optimal_range.1 - value) optimal_range.1).map (fun r => min 1 r)
  else
    (qdiv? (value - optimal_range.2) (100 - optimal_range.2)).map
      (fun r => min 1 r)

/-! ## stem.py -/

/-- StemProperties from stem.py. -/
structure StemProperties where
  thickness : ℚ
  flexibility : ℚ
  branching_angle : ℚ
  branching_variance : ℚ
  max_branches : ℕ
  growth_rate : ℚ
  branch_spacing : ℚ
deriving DecidableEq

/-- StemAppearance from stem.py. -/
structure StemAppearance where
  color : ℚ × ℚ × ℚ
  texture : String
  node_visibility : ℚ
  thorn_frequency : ℚ
deriving DecidableEq

/-- StemSystemDefinition from stem.py. -/
structure StemSystemDefinition where
  properties : StemProperties
  appearance : StemAppearance
deriving DecidableEq

/-- Branch from stem.py: a tree node with a start position, a fixed angle
and length, a growth fraction, a derived end position and a list of child
branches. -/
inductive Branch : Type where
  | node (start_pos : ℚ × ℚ) (angle : ℚ) (length : ℚ) (growth : ℚ)
      (end_pos : ℚ × ℚ) (children : List Branch) : Branch

namespace Branch

/-- Accessor for the start_pos attribute. -/
def start_pos : Branch → ℚ × ℚ
  | .node sp _ _ _ _ _ => sp

/-- Accessor for the angle attribute. -/
def angle : Branch → ℚ
  | .node _ a _ _ _ _ => a

/-- Accessor for the length attribute. -/
def length : Branch → ℚ
  | .node _ _ l _ _ _ => l

/-- Accessor for the growth attribute. -/
def growth : Branch → ℚ
  | .node _ _ _ g _ _ => g

/-- Accessor for the end_pos attribute. -/
def end_pos : Branch → ℚ × ℚ
  | .node _ _ _ _ ep _ => ep

/-- Accessor for the children attribute. -/
def children : Branch → List Branch
  | .node _ _ _ _ _ ch => ch

/-- Formula of Branch._update_end_pos: end position derived from start
position, angle, length and growth; the y displacement is negated so the
stem grows upward. -/
def endPosOf (T : Trig) (sp : ℚ × ℚ) (a l g : ℚ) : ℚ × ℚ :=
  (sp.1 + T.cos a * l * g, sp.2 - T.sin a * l * g)

/-- Branch.__init__: growth starts at 0 and end_pos is derived. -/
def init (T : Trig) (sp : ℚ × ℚ) (a l : ℚ) : Branch :=
  .node sp a l 0 (endPosOf T sp a l 0) []

mutual

/-- Branch.grow: clamp growth at 1, refresh end_pos, then grow every child
by the same unscaled amount. -/
def grow (T : Trig) (amount : ℚ) : Branch → Branch
  | .node sp a l g _ ch =>
    let g2 := min 1 (g + amount)
    .node sp a l g2 (endPosOf T sp a l g2) (growList T amount ch)

/-- Helper applying Branch.grow to each branch of a list. -/
def growList (T : Trig) (amount : ℚ) : List Branch → List Branch
  | [] => []
  | b :: bs => grow T amount b :: growList T amount bs

end

/-- Branch.add_child: append a new child branch starting at the current end
position, at the parent angle plus the given offset. -/
def add_child (T : Trig) (angle_offset len : ℚ) : Branch → Branch
  | .node sp a l g ep ch =>
    .node sp a l g ep (ch ++ [init T ep (a + angle_offset) len])

mutual

/-- Preorder list of the growth fractions of every branch in the tree. -/
def growths : Branch → List ℚ
  | .node _ _ _ g _ ch => g :: growthsList ch

/-- Helper collecting growth fractions over a list of branches. -/
def growthsList : List Branch → List ℚ
  | [] => []
  | b :: bs => growths b ++ growthsList bs

end

end Branch

/-- Oracle for the random draws made by one StemSystem.grow call: one
uniform angle variance and one uniform length variation per side, drawn in
the order side -1 first, then side 1. -/
structure StemRng where
  variance_neg : ℚ
  length_var_neg : ℚ
  variance_pos : ℚ
  length_var_pos : ℚ
deriving DecidableEq

/-- Mutable state of StemSystem from stem.py. -/
structure StemSystem where
  properties : StemProperties
  appearance : StemAppearance
  main_stem : Branch
  branch_side : ℤ
  last_branch_height : ℚ
  health : ℚ

namespace StemSystem

/-- StemSystem.__init__: the main stem starts at the origin with angle
math.pi / 2 and length 300. -/
def init (T : Trig) (properties : StemProperties)
    (appearance : StemAppearance) : StemSystem where
  properties := properties
  appearance := appearance
  main_stem := Branch.init T (0, 0) halfPi 300
  branch_side := 1
  last_branch_height := 0
  health := 100

/-- StemSystem.grow: grow the whole tree by amount scaled by the template
growth_rate, then spawn one branch per side when the spacing condition holds
and the root has fewer than max_branches children. -/
def grow (T : Trig) (rng : StemRng) (s : StemSystem) (amount : ℚ) :
    StemSystem :=
  let main := s.main_stem.grow T (amount * s.properties.growth_rate)
  let current_height := |main.end_pos.2 - main.start_pos.2|
  let min_spacing := s.properties.branch_spacing * main.length
  if min_spacing ≤ current_height - s.last_branch_height ∧
      main.children.length < s.properties.max_branches then
    let main := main.add_child T
      (s.properties.branching_angle * (-1) + rng.variance_neg)
      (main.length * rng.length_var_neg)
    let main := main.add_child T
      (s.properties.branching_angle * 1 + rng.variance_pos)
      (main.length * rng.length_var_pos)
    { s with main_stem := main, last_branch_height := current_height }
  else
    { s with main_stem := main }

end StemSystem

/-! ## plant_factory.py -/

/-- PlantDefinition from plant_factory.py, restricted to the fields that the
simulation core reads (the leaf and flower generators are pure rendering
collaborators and carry no simulation state). -/
structure PlantDefinition where
  species : String
  common_name : String
  growth_characteristics : GrowthCharacteristics
  environmental_requirements : GrowthRequirements
  stem_system : StemSystemDefinition
  type : String

/-- Stage values stored in the stage field of a flower data record. -/
inductive FlowerStage : Type where
  | bud
  | opening
  | bloomed
  | withering
deriving DecidableEq

/-- Per-branch flower record stored in the Plant.flower_data dict. -/
structure FlowerData where
  should_flower : Bool
  flower_time : ℕ
  bloom_end : Option ℕ
  size : ℚ
  stage : FlowerStage
  stage_progress : ℚ
  bud_start : Option ℕ
deriving DecidableEq

/-- Oracle for the random draws that one Plant._should_flower call may make:
the Bernoulli roll against flowering.chance, the randint delay for the first
flower_time, the size roll, the reschedule roll against 0.3 and the randint
reschedule delay. -/
structure FlowerRng where
  init_roll : ℚ
  init_delay : ℕ
  size_roll : ℚ
  wither_roll : ℚ
  wither_delay : ℕ
deriving DecidableEq

/-- Plant._should_flower for a single branch, as a function of the plant
fields it reads (age, growth_stage, flowering characteristics, stem
thickness), the branch growth, and the stored record for that branch (none
when the branch id is not yet a key of flower_data).  Returns the boolean
result together with the record left in flower_data afterwards.  In the
bloomed stage the comparison age > bloom_end is modelled with getD; a none
bloom_end there would raise in Python, but the bloomed stage is only ever
entered together with an assignment to bloom_end. -/
def shouldFlowerStep (fc : FloweringCharacteristics) (thickness : ℚ)
    (rng : FlowerRng) (branch_growth growth_stage : ℚ) (age : ℕ)
    (d0 : Option FlowerData) : Bool × Option FlowerData :=
  if branch_growth < 95 / 100 then (false, d0)
  else if growth_stage < fc.min_maturity then (false, d0)
  else
    let d : FlowerData :=
      match d0 with
      | none =>
        { should_flower := decide (rng.init_roll < fc.chance)
          flower_time := age + rng.init_delay
          bloom_end := none
          size := thickness * (15 / 2) * (4 / 5 + (2 / 5) * rng.size_roll)
          stage := .bud
          stage_progress := 0
          bud_start := none }
      | some d => d
    if d.should_flower ∧ d.flower_time ≤ age then
      let d :=
        match d.bud_start with
        | none => { d with bud_start := some age, stage := .bud,
                           stage_progress := 0 }
        | some _ => d
      let time_in_stage : ℕ := age - (d.bud_start.getD age)
      match d.stage with
      | .bud =>
        let prog := min 1 ((time_in_stage : ℚ) / 100)
        let d := { d with stage_progress := prog }
        let d :=
          if 1 ≤ prog then
            { d with stage := .opening, stage_progress := 0,
                     bud_start := some age }
          else d
        (true, some d)
      | .opening =>
        let prog := min 1 ((time_in_stage : ℚ) / 150)
        let d := { d with stage_progress := prog }
        let d :=
          if 1 ≤ prog then
            { d with stage := .bloomed, stage_progress := 0,
                     bud_start := some age,
                     bloom_end := some (age + fc.bloom_duration) }
          else d
        (true, some d)
      | .bloomed =>
        let d :=
          if d.bloom_end.getD age < age then
            { d with stage := .withering, stage_progress := 0,
                     bud_start := some age }
          else d
        (true, some d)
      | .withering =>
        let prog := min 1 ((time_in_stage : ℚ) / 100)
        let d := { d with stage_progress := prog }
        if 1 ≤ prog then
          if rng.wither_roll < 3 / 10 then
            (false, some { d with flower_time := age + rng.wither_delay,
                                  bud_start := none })
          else
            (false, some d)
        else
          (true, some d)
    else
      (false, some d)

/-- Iterated evaluation of Plant._should_flower for one branch: starting at
the given age, evaluate the record once per tick for the given number of
ticks, the age advancing by 1 between evaluations.  The eligibility inputs
and the random oracle are held fixed across the ticks. -/
def flowerIter (fc : FloweringCharacteristics) (thickness : ℚ)
    (rng : FlowerRng) (branch_growth growth_stage : ℚ) :
    ℕ → ℕ → Option FlowerData → Option FlowerData
  | _, 0, d => d
  | a, k + 1, d =>
    flowerIter fc thickness rng branch_growth growth_stage (a + 1) k
      (shouldFlowerStep fc thickness rng branch_growth growth_stage a d).2

/-- Mutable state of a Plant instance, restricted to the fields read or
written by Plant.update and Plant.is_dead together with the flower_data
table (an association list keyed by branch identity). -/
structure PlantState where
  definition : PlantDefinition
  x : ℚ
  y : ℚ
  growth_stage : ℚ
  health : ℚ
  age : ℕ
  max_age : ℕ
  is_withering : Bool
  wither_time : ℕ
  max_wither_time : ℕ
  scale_factor : ℚ
  stem_system : StemSystem
  flower_data : List (ℕ × FlowerData)

namespace PlantState

/-- Scale factor table applied by Plant.__init__ according to the plant
type string, defaulting to 1. -/
def typeScaleFactor (t : String) : ℚ :=
  if t = "tree" then 5 / 2
  else if t = "grass" then 7 / 10
  else if t = "ground_cover" then 2 / 5
  else if t = "herb" then 3 / 5
  else if t = "shrub" then 1
  else if t = "flower" then 1
  else 1

/-- Plant.__init__: fresh plant state at the given position. -/
def init (T : Trig) (definition : PlantDefinition) (x y : ℚ)
    (scale_factor : ℚ) : PlantState where
  definition := definition
  x := x
  y := y
  growth_stage := 0
  health := 100
  age := 0
  max_age := definition.growth_characteristics.lifespan
  is_withering := false
  wither_time := 0
  max_wither_time := 300
  scale_factor := scale_factor * typeScaleFactor definition.type
  stem_system := StemSystem.init T definition.stem_system.properties
    definition.stem_system.appearance
  flower_data := []

/-- Plant.update.  The age is incremented first; on an odd age the call
returns immediately.  A ZeroDivisionError raised inside _calculate_stress
propagates out of update after only the age increment has taken effect,
which is the state the match arm for a none stress returns. -/
def update (T : Trig) (environment : EnvironmentalFactors) (rng : StemRng)
    (p : PlantState) : PlantState :=
  let p := { p with age := p.age + 1 }
  if p.age % 2 ≠ 0 then p
  else if p.is_withering then
    let wither_time := p.wither_time + 1
    let wither_progress := (wither_time : ℚ) / (p.max_wither_time : ℚ)
    let props := p.stem_system.properties
    { p with
      wither_time := wither_time
      health := max 0 (p.health - 1 / 2)
      stem_system := { p.stem_system with properties :=
        { props with thickness :=
            props.thickness * (1 - wither_progress * (1 / 100)) } } }
  else if p.max_age ≤ p.age ∨ p.health ≤ 20 then
    { p with is_withering := true }
  else
    match
      plantCalculateStress environment.water_level
        p.definition.environmental_requirements.optimal_water,
      plantCalculateStress environment.light_level
        p.definition.environmental_requirements.optimal_light with
    | some water_stress, some light_stress =>
      let stress := max water_stress light_stress
      let health_change :=
        if stress > 1 / 2 then -(1 / 5) * stress else (1 / 10) * (1 - stress)
      let p := { p with health := max 0 (min 100 (p.health + health_change)) }
      let p : PlantState :=
        if p.health > 50 then
          let growth_amount := (1 / 200) * (1 - stress) *
            p.definition.growth_characteristics.growth_rate
          let p := { p with growth_stage := min 1 (p.growth_stage + growth_amount) }
          if p.growth_stage > 0 then
            { p with stem_system := p.stem_system.grow T rng (growth_amount * 2) }
          else p
        else p
      if p.age % 5 = 0 then
        { p with health := max 0 (p.health - stress * (1 / 10)) }
      else p
    | _, _ => p

/-- Plant.is_dead: dead when health has reached 0 or withering has run its
full course. -/
def is_dead (p : PlantState) : Bool :=
  decide (p.health ≤ 0) ||
    (p.is_withering && decide (p.max_wither_time ≤ p.wither_time))

/-- Fold of Plant.update over a list of per-tick environment and random
oracle inputs. -/
def updates (T : Trig) (l : List (EnvironmentalFactors × StemRng))
    (p : PlantState) : PlantState :=
  l.foldl (fun s er => s.update T er.1 er.2) p

end PlantState

/-! ## Concrete sample data used by counterexamples and witnesses -/

/-- Sample flowering characteristics. -/
def fcSample : FloweringCharacteristics := ⟨7 / 10, 4 / 5, 100, 500, 800⟩

/-- Sample growth characteristics. -/
def gcSample : GrowthCharacteristics := ⟨100, 1, 10000, fcSample⟩

/-- Sample growth requirements with light range 20 to 80 and temperature
range 10 to 40, both tolerances zero. -/
def reqSample : GrowthRequirements :=
  ⟨(40, 60), (20, 80), (10, 40), (40, 60), 0, 0⟩

/-- Sample growth requirements in which every optimal range is 40 to 60
except temperature 10 to 30, both tolerances zero. -/
def reqSample2 : GrowthRequirements :=
  ⟨(40, 60), (40, 60), (10, 30), (40, 60), 0, 0⟩

/-- Sample environment system built from reqSample. -/
def sysSample : EnvironmentSystem := EnvironmentSystem.init reqSample gcSample

/-- Sample environment system built from reqSample2. -/
def sysSample2 : EnvironmentSystem :=
  EnvironmentSystem.init reqSample2 gcSample

/-- Sample environmental factors: water 20, light 50, temperature 20,
humidity 50, soil quality 100. -/
def envSample : EnvironmentalFactors := ⟨20, 50, 20, 50, 100⟩

/-- Environment system state reached from sysSample2 by one update on
envSample: water stress (40 - 20) / 40 = 1 / 2, the three other stresses 0,
health 100 - (1 / 8) * 2 = 399 / 4 and growth rate modifier
(399 / 400) * (1 - 1 / 8) = 2793 / 3200. -/
def sysSample2After : EnvironmentSystem :=
  { requirements := reqSample2
    characteristics := gcSample
    stress_factors := ⟨1 / 2, 0, 0, 0⟩
    overall_health := 399 / 4
    growth_rate_modifier := 2793 / 3200 }

set_option maxHeartbeats 3200000 in
/-- Evaluation of the single environment-system update used by the C4
counterexample and witness. -/
theorem sysSample2_update_eq :
    sysSample2.update envSample = some sysSample2After := by
  norm_num [sysSample2, sysSample2After, reqSample2, gcSample, fcSample,
    envSample, EnvironmentSystem.init, EnvironmentSystem.update,
    EnvironmentSystem.calculateWaterStress,
    EnvironmentSystem.calculateLightStress,
    EnvironmentSystem.calculateTemperatureStress,
    EnvironmentSystem.calculateHumidityStress,
    EnvironmentSystem.updateHealth, EnvironmentSystem.updateGrowthRate,
    StressFactors.total, qdiv?]

/-- Sample stem properties with max_branches 1, branch_spacing 0 and
growth_rate 1. -/
def propsSample : StemProperties := ⟨1, 0, 1 / 2, 0, 1, 1, 0⟩

/-- Sample stem appearance. -/
def appSample : StemAppearance := ⟨(0, 0, 0), "smooth", 1, 0⟩

/-- Concrete trigonometric oracle used to evaluate witnesses and
counterexamples. -/
def trigSample : Trig := ⟨fun _ => 1, fun _ => 1⟩

/-- Sample random oracle for a StemSystem.grow call: zero angle variance
and length variation 1 / 2 on both sides. -/
def stemRngSample : StemRng := ⟨0, 1 / 2, 0, 1 / 2⟩

/-! ## Branch and StemSystem helper lemmas -/

/-- Branch.grow maps the children through growList. -/
theorem Branch.grow_children (T : Trig) (amt : ℚ) (b : Branch) :
    (b.grow T amt).children = Branch.growList T amt b.children := by
  cases b
  rfl

/-- Branch.growList preserves the number of branches. -/
theorem Branch.growList_length (T : Trig) (amt : ℚ) (l : List Branch) :
    (Branch.growList T amt l).length = l.length := by
  induction l with
  | nil => rfl
  | cons b bs ih => simp [Branch.growList, ih]

/-- Branch.add_child appends exactly one child. -/
theorem Branch.add_child_children (T : Trig) (off len : ℚ) (b : Branch) :
    (b.add_child T off len).children =
      b.children ++ [Branch.init T b.end_pos (b.angle + off) len] := by
  cases b
  rfl

/-- StemSystem.grow leaves the stem template untouched. -/
theorem StemSystem.grow_properties (T : Trig) (rng : StemRng)
    (s : StemSystem) (amount : ℚ) :
    (s.grow T rng amount).properties = s.properties := by
  simp only [StemSystem.grow]
  split_ifs <;> rfl

/-- Effect of one StemSystem.grow call on the number of root children:
either the spawn condition held, the old count was strictly below
max_branches and exactly two children were appended, or the count is
unchanged. -/
theorem StemSystem.grow_children_length (T : Trig) (rng : StemRng)
    (s : StemSystem) (amount : ℚ) :
    ((s.grow T rng amount).main_stem.children.length =
        s.main_stem.children.length + 2 ∧
      s.main_stem.children.length < s.properties.max_branches) ∨
    (s.grow T rng amount).main_stem.children.length =
      s.main_stem.children.length := by
  simp only [StemSystem.grow]
  split_ifs with h
  · left
    refine ⟨?_, ?_⟩
    · simp [Branch.add_child_children, Branch.grow_children,
        Branch.growList_length]
    · have := h.2
      simpa [Branch.grow_children, Branch.growList_length] using this
  · right
    simp [Branch.grow_children, Branch.growList_length]

/-- Fold of StemSystem.grow over a list of per-call random oracles and
amounts. -/
def StemSystem.growSeq (T : Trig) (calls : List (StemRng × ℚ))
    (s : StemSystem) : StemSystem :=
  calls.foldl (fun s c => s.grow T c.1 c.2) s

/-- StemSystem.growSeq leaves the stem template untouched. -/
theorem StemSystem.growSeq_properties (T : Trig) (calls : List (StemRng × ℚ))
    (s : StemSystem) : (StemSystem.growSeq T calls s).properties =
      s.properties := by
  induction calls generalizing s with
  | nil => rfl
  | cons c cs ih =>
    show (StemSystem.growSeq T cs (s.grow T c.1 c.2)).properties =
      s.properties
    rw [ih, StemSystem.grow_properties]

/-- Invariant: a growth sequence keeps the root child count at or below
max_branches plus one. -/
theorem StemSystem.growSeq_children_bound (T : Trig)
    (calls : List (StemRng × ℚ)) (s : StemSystem)
    (h : s.main_stem.children.length ≤ s.properties.max_branches + 1) :
    (StemSystem.growSeq T calls s).main_stem.children.length ≤
      (StemSystem.growSeq T calls s).properties.max_branches + 1 := by
  induction calls generalizing s with
  | nil => exact h
  | cons c cs ih =>
    show (StemSystem.growSeq T cs (s.grow T c.1 c.2)).main_stem.children.length ≤
      (StemSystem.growSeq T cs (s.grow T c.1 c.2)).properties.max_branches + 1
    apply ih
    rcases StemSystem.grow_children_length T c.1 s c.2 with ⟨heq, hlt⟩ | heq <;>
      rw [heq, StemSystem.grow_properties] <;> omega

/-! ## Claim C2 -/

/-- Claim C2 as stated is false: with max_branches 1, a single grow call
that satisfies the spacing condition spawns two children at once, leaving
the root with 2 children, strictly more than max_branches. -/
theorem C2_counterexample :
    propsSample.max_branches = 1 ∧
    ((StemSystem.init trigSample propsSample appSample).grow trigSample
        stemRngSample 1).main_stem.children.length = 2 := by
  refine ⟨rfl, ?_⟩
  norm_num [StemSystem.init, StemSystem.grow, propsSample, appSample,
    trigSample, stemRngSample, Branch.init, Branch.grow, Branch.growList,
    Branch.add_child, Branch.endPosOf, Branch.children, Branch.end_pos,
    Branch.start_pos, Branch.length, Branch.angle]

/-- Claim C2 amended: starting from a fresh StemSystem, the root never ends
up with more than max_branches plus one children (each spawn appends two
children and only fires while the count is strictly below max_branches, so
an odd max_branches can be exceeded by exactly one), and a grow call made
when the root already has max_branches or more children never spawns. -/
theorem C2_theorem (T : Trig) (props : StemProperties) (app : StemAppearance)
    (calls : List (StemRng × ℚ)) :
    (StemSystem.growSeq T calls
        (StemSystem.init T props app)).main_stem.children.length ≤
      props.max_branches + 1 ∧
    ∀ (s : StemSystem) (rng : StemRng) (amount : ℚ),
      s.properties.max_branches ≤ s.main_stem.children.length →
      (s.grow T rng amount).main_stem.children.length =
        s.main_stem.children.length := by
  constructor
  · have h0 : (StemSystem.init T props app).main_stem.children.length ≤
        (StemSystem.init T props app).properties.max_branches + 1 := by
      simp [StemSystem.init, Branch.init, Branch.children]
    have := StemSystem.growSeq_children_bound T calls
      (StemSystem.init T props app) h0
    rwa [StemSystem.growSeq_properties] at this
  · intro s rng amount hge
    rcases StemSystem.grow_children_length T rng s amount with ⟨_, hlt⟩ | heq
    · omega
    · exact heq

/-- Witness instantiating C2_theorem: a concrete run with max_branches 1
stays at or below 2 children, and a grow call on a root that already has
max_branches children does not spawn. -/
theorem C2_witness :
    (StemSystem.growSeq trigSample [(stemRngSample, 1)]
        (StemSystem.init trigSample propsSample appSample)).main_stem.children.length ≤
      propsSample.max_branches + 1 ∧
    ((StemSystem.growSeq trigSample [(stemRngSample, 1)]
          (StemSystem.init trigSample propsSample appSample)).grow trigSample
        stemRngSample 1).main_stem.children.length =
      (StemSystem.growSeq trigSample [(stemRngSample, 1)]
          (StemSystem.init trigSample propsSample appSample)).main_stem.children.length := by
  have h := C2_theorem trigSample propsSample appSample [(stemRngSample, 1)]
  refine ⟨h.1, h.2 _ stemRngSample 1 ?_⟩
  have hc := C2_counterexample
  have : (StemSystem.growSeq trigSample [(stemRngSample, 1)]
      (StemSystem.init trigSample propsSample appSample)).main_stem.children.length = 2 := by
    simpa [StemSystem.growSeq] using hc.2
  rw [this, StemSystem.growSeq_properties]
  norm_num [StemSystem.init, propsSample]

/-! ## Claim C9 -/

mutual

/-- Branch.grow updates every growth fraction in the tree to the clamp of
the old fraction plus the same unscaled amount. -/
theorem Branch.growths_grow (T : Trig) (amt : ℚ) :
    ∀ b : Branch, (Branch.grow T amt b).growths =
      b.growths.map (fun g => min 1 (g + amt))
  | .node sp a l g ep ch => by
    simp [Branch.grow, Branch.growths,
      Branch.growthsList_growList T amt ch]

/-- List form of Branch.growths_grow. -/
theorem Branch.growthsList_growList (T : Trig) (amt : ℚ) :
    ∀ ch : List Branch, Branch.growthsList (Branch.growList T amt ch) =
      (Branch.growthsList ch).map (fun g => min 1 (g + amt))
  | [] => by simp [Branch.growList, Branch.growthsList]
  | b :: bs => by
    simp [Branch.growList, Branch.growthsList,
      Branch.growths_grow T amt b, Branch.growthsList_growList T amt bs]

end

/-- Appending lemma for the preorder growth list. -/
theorem Branch.growthsList_append (l1 l2 : List Branch) :
    Branch.growthsList (l1 ++ l2) =
      Branch.growthsList l1 ++ Branch.growthsList l2 := by
  induction l1 with
  | nil => simp [Branch.growthsList]
  | cons b bs ih => simp [Branch.growthsList, ih]

/-- Branch.add_child appends a single growth entry 0 to the preorder
growth list. -/
theorem Branch.growths_add_child (T : Trig) (off len : ℚ) (b : Branch) :
    (b.add_child T off len).growths = b.growths ++ [0] := by
  cases b
  simp [Branch.add_child, Branch.growths, Branch.growthsList_append,
    Branch.growthsList, Branch.init]

/-- Claim C9: Branch.grow applies the identical increment, clamped at 1, to
the root and every descendant, and StemSystem.grow scales the requested
amount by the template growth_rate once and applies that same scaled
increment at every depth; the branches present before the call (a prefix of
the preorder traversal, since a spawn only appends new children) all carry
the uniformly updated growth fractions. -/
theorem C9_theorem (T : Trig) (amt : ℚ) (b : Branch) (rng : StemRng)
    (s : StemSystem) (amount : ℚ) :
    (b.grow T amt).growths = b.growths.map (fun g => min 1 (g + amt)) ∧
    ((s.grow T rng amount).main_stem.growths).take
        s.main_stem.growths.length =
      s.main_stem.growths.map
        (fun g => min 1 (g + amount * s.properties.growth_rate)) := by
  refine ⟨Branch.growths_grow T amt b, ?_⟩
  simp only [StemSystem.grow]
  have hlen : (s.main_stem.growths.map
      (fun g => min 1 (g + amount * s.properties.growth_rate))).length =
      s.main_stem.growths.length := by simp
  split_ifs with h
  · rw [Branch.growths_add_child, Branch.growths_add_child,
      Branch.growths_grow, List.append_assoc, ← hlen, List.take_left]
  · rw [Branch.growths_grow, ← hlen, List.take_length]

/-! ## Claim C1 -/

/-- Claim C1 as stated is false: the EnvironmentSystem per-factor stress
functions are not clamped to the interval from 0 to 1 (light level 200
against the range 20 to 80 yields stress 6), and a range with min equal to
0 does not saturate at 1 on the deficit side but raises ZeroDivisionError
(modelled by none) in Plant._calculate_stress. -/
theorem C1_counterexample :
    sysSample.calculateLightStress 200 = some 6 ∧
    ¬ ((6 : ℚ) ≤ 1) ∧
    plantCalculateStress (-1) ((0 : ℚ), 50) = none := by
  refine ⟨?_, by norm_num, ?_⟩
  · norm_num [sysSample, reqSample, gcSample, EnvironmentSystem.init,
      EnvironmentSystem.calculateLightStress, qdiv?]
  · norm_num [plantCalculateStress, qdiv?]

/-- Claim C1 amended: Plant._calculate_stress (the clamped variant) does
return a defined value in the interval from 0 to 1 for every input value,
provided the requirement range has min strictly above 0 and max strictly
below 100; the unguarded boundary cases and the unclamped EnvironmentSystem
functions are exhibited by the counterexample. -/
theorem C1_amended (r : ℚ × ℚ) (v : ℚ) (h1 : 0 < r.1) (h2 : r.2 < 100) :
    ∃ s, plantCalculateStress v r = some s ∧ 0 ≤ s ∧ s ≤ 1 := by
  unfold plantCalculateStress qdiv?
  split_ifs with hin hlo hz hz
  · exact ⟨0, rfl, le_refl 0, zero_le_one⟩
  · exact absurd hz h1.ne'
  · refine ⟨min 1 ((r.1 - v) / r.1), by simp, ?_, min_le_left _ _⟩
    exact le_min zero_le_one (div_pos (by linarith) h1).le
  · exact absurd hz (by linarith)
  · have hv : r.2 < v := by
      rcases not_and_or.mp hin with h | h
      · exact absurd (le_of_not_lt hlo) h
      · exact lt_of_not_le h
    refine ⟨min 1 ((v - r.2) / (100 - r.2)), by simp, ?_, min_le_left _ _⟩
    exact le_min zero_le_one (div_pos (by linarith) (by linarith)).le

/-- Witness instantiating C1_amended at the range 30 to 70 and value 200. -/
theorem C1_witness :
    (0 : ℚ) < 30 ∧ (70 : ℚ) < 100 ∧
    ∃ s, plantCalculateStress 200 ((30 : ℚ), 70) = some s ∧ 0 ≤ s ∧ s ≤ 1 :=
  ⟨by norm_num, by norm_num,
    C1_amended ((30 : ℚ), 70) 200 (by norm_num) (by norm_num)⟩

/-! ## Claim C3 -/

/-- Claim C3 as stated is false: for temperature 70 above the optimal max
40 with heat tolerance 0, the code returns (70 - 40) / 40 = 3 / 4, while
the claimed formula (value - max) / (100 - max) gives 1 / 2. -/
theorem C3_counterexample :
    sysSample.calculateTemperatureStress 70 = some (3 / 4) ∧
    ((70 - 40) / (100 - 40) * (1 - 0) : ℚ) = 1 / 2 ∧
    (3 / 4 : ℚ) ≠ 1 / 2 := by
  refine ⟨?_, by norm_num, by norm_num⟩
  norm_num [sysSample, reqSample, gcSample, EnvironmentSystem.init,
    EnvironmentSystem.calculateTemperatureStress, qdiv?]

/-- Claim C3 amended: for every temperature value strictly above the
optimal max, with min at most max and max nonzero, the temperature stress
equals ((value - max) / max) * (1 - heat_tolerance): the excess fraction is
normalised by max itself, not by the distance from max to 100. -/
theorem C3_theorem (s : EnvironmentSystem) (v : ℚ)
    (h1 : s.requirements.optimal_temp.1 ≤ s.requirements.optimal_temp.2)
    (h2 : s.requirements.optimal_temp.2 < v)
    (h3 : s.requirements.optimal_temp.2 ≠ 0) :
    s.calculateTemperatureStress v =
      some ((v - s.requirements.optimal_temp.2) /
        s.requirements.optimal_temp.2 * (1 - s.requirements.heat_tolerance)) := by
  unfold EnvironmentSystem.calculateTemperatureStress qdiv?
  rw [if_neg (by push_neg; linarith), if_pos h2, if_neg h3]
  rfl

/-- Witness instantiating C3_theorem on sysSample at temperature 70. -/
theorem C3_witness :
    sysSample.requirements.optimal_temp.1 ≤ sysSample.requirements.optimal_temp.2 ∧
    sysSample.requirements.optimal_temp.2 < 70 ∧
    sysSample.requirements.optimal_temp.2 ≠ 0 ∧
    sysSample.calculateTemperatureStress 70 =
      some ((70 - sysSample.requirements.optimal_temp.2) /
        sysSample.requirements.optimal_temp.2 *
        (1 - sysSample.requirements.heat_tolerance)) :=
  ⟨by norm_num [sysSample, reqSample, EnvironmentSystem.init],
    by norm_num [sysSample, reqSample, EnvironmentSystem.init],
    by norm_num [sysSample, reqSample, EnvironmentSystem.init],
    C3_theorem sysSample 70
      (by norm_num [sysSample, reqSample, EnvironmentSystem.init])
      (by norm_num [sysSample, reqSample, EnvironmentSystem.init])
      (by norm_num [sysSample, reqSample, EnvironmentSystem.init])⟩

/-! ## Claim C4 -/

/-- Claim C4 as stated is false: after one update of sysSample2 on
envSample the stored growth rate modifier is 2793 / 3200, while the claimed
formula max(0, (health / 100) * (1 - avg_stress / 4)) evaluates to
12369 / 12800 on the same post-update state. -/
theorem C4_counterexample :
    (sysSample2.update envSample).map EnvironmentSystem.growth_rate_modifier =
      some (2793 / 3200) ∧
    (sysSample2.update envSample).map
      (fun s => max 0 ((s.overall_health / 100) *
        (1 - (s.stress_factors.total / 4) / 4))) = some (12369 / 12800) ∧
    (2793 / 3200 : ℚ) ≠ 12369 / 12800 := by
  rw [sysSample2_update_eq]
  refine ⟨?_, ?_, by norm_num⟩ <;>
    norm_num [sysSample2After, StressFactors.total]

/-- Claim C4 amended: after each successful EnvironmentSystem update the
growth rate modifier equals max(0, (health / 100) * (1 - avg_stress)) with
avg_stress the mean of the four per-factor stresses (their sum divided by
4), and the aggregate-health step uses exactly the same mean: the two steps
share the divisor 4 rather than differing. -/
theorem C4_theorem (s : EnvironmentSystem) (env : EnvironmentalFactors)
    (s2 : EnvironmentSystem) (h : s.update env = some s2) :
    s2.growth_rate_modifier =
      max 0 ((s2.overall_health / 100) * (1 - s2.stress_factors.total / 4)) ∧
    s2.overall_health =
      (if s2.stress_factors.total / 4 > 0 then
        max 0 (s.overall_health - (s2.stress_factors.total / 4) * 2)
      else
        min 100 (s.overall_health + (1 / 10) * (env.soil_quality / 100))) := by
  simp only [EnvironmentSystem.update, bind, Option.bind_eq_some,
    Option.some_inj] at h
  obtain ⟨w, hw, l, hl, t, ht, hu, hh, rfl⟩ := h
  constructor
  all_goals
    simp only [EnvironmentSystem.updateGrowthRate,
      EnvironmentSystem.updateHealth]
  all_goals split_ifs <;> simp_all [StressFactors.total]

/-- Witness instantiating C4_theorem on sysSample2 and envSample. -/
theorem C4_witness :
    sysSample2.update envSample = some sysSample2After ∧
    (sysSample2After.growth_rate_modifier =
      max 0 ((sysSample2After.overall_health / 100) *
        (1 - sysSample2After.stress_factors.total / 4)) ∧
    sysSample2After.overall_health =
      (if sysSample2After.stress_factors.total / 4 > 0 then
        max 0 (sysSample2.overall_health -
          (sysSample2After.stress_factors.total / 4) * 2)
      else
        min 100 (sysSample2.overall_health +
          (1 / 10) * (envSample.soil_quality / 100)))) :=
  ⟨sysSample2_update_eq,
    C4_theorem sysSample2 envSample sysSample2After sysSample2_update_eq⟩


/-! ## Plant-level sample data and helper lemmas -/

/-- Sample stem system definition. -/
def stemDefSample : StemSystemDefinition := ⟨propsSample, appSample⟩

/-- Sample plant definition built from the sample records; every optimal
range lies inside the 0 to 100 factor scale. -/
def defnSample : PlantDefinition :=
  ⟨"Rosa sample", "sample rose", gcSample, reqSample2, stemDefSample,
    "flower"⟩

/-- Sample freshly-constructed plant. -/
def plantSample : PlantState :=
  PlantState.init trigSample defnSample 0 0 1

/-- Sample plant whose health has reached 0, hence dead. -/
def deadPlantSample : PlantState := { plantSample with health := 0 }

/-! ## Claim C10 -/

/-- Claim C10: an update call whose incremented age is odd changes only the
age field; health, growth stage, withering state and timer, the stem system
and the flower table are all left as they were. -/
theorem C10_theorem (T : Trig) (env : EnvironmentalFactors) (rng : StemRng)
    (p : PlantState) (h : (p.age + 1) % 2 ≠ 0) :
    p.update T env rng = { p with age := p.age + 1 } := by
  simp [PlantState.update, h]

/-- Witness instantiating C10_theorem on a fresh sample plant of age 0. -/
theorem C10_witness :
    (plantSample.age + 1) % 2 ≠ 0 ∧
    plantSample.update trigSample envSample stemRngSample =
      { plantSample with age := plantSample.age + 1 } :=
  ⟨by norm_num [plantSample, PlantState.init],
    C10_theorem trigSample envSample stemRngSample plantSample
      (by norm_num [plantSample, PlantState.init])⟩

/-! ## Claim C7 -/

/-- One update call preserves deadness. -/
theorem PlantState.is_dead_update (T : Trig) (env : EnvironmentalFactors)
    (rng : StemRng) (p : PlantState) (h : p.is_dead = true) :
    (p.update T env rng).is_dead = true := by
  simp only [PlantState.is_dead, Bool.or_eq_true, Bool.and_eq_true,
    decide_eq_true_eq] at h ⊢
  simp only [PlantState.update]
  split_ifs with h1 h2 h3
  · exact h
  · rcases h with h | ⟨hw, ht⟩
    · left
      simp only
      rw [max_le_iff]
      constructor <;> linarith
    · right
      refine ⟨hw, ?_⟩
      simp only
      omega
  · rcases h with h | ⟨hw, ht⟩
    · left
      exact h
    · exact absurd hw h2
  · exfalso
    rcases h with h | ⟨hw, ht⟩
    · exact h3 (Or.inr (by linarith))
    · exact h2 hw

/-- Claim C7: once Plant.is_dead returns true it returns true after every
subsequent update call, for every sequence of environments and random
draws; there is no transition out of the dead state. -/
theorem C7_theorem (T : Trig) (l : List (EnvironmentalFactors × StemRng))
    (p : PlantState) (h : p.is_dead = true) :
    (PlantState.updates T l p).is_dead = true := by
  induction l generalizing p with
  | nil => exact h
  | cons c cs ih =>
    show (PlantState.updates T cs (p.update T c.1 c.2)).is_dead = true
    exact ih _ (PlantState.is_dead_update T c.1 c.2 p h)

/-- Witness instantiating C7_theorem on a dead sample plant and one further
update. -/
theorem C7_witness :
    deadPlantSample.is_dead = true ∧
    (PlantState.updates trigSample [(envSample, stemRngSample)]
        deadPlantSample).is_dead = true :=
  ⟨by norm_num [deadPlantSample, plantSample, PlantState.init,
      PlantState.is_dead],
    C7_theorem trigSample [(envSample, stemRngSample)] deadPlantSample
      (by norm_num [deadPlantSample, plantSample, PlantState.init,
        PlantState.is_dead])⟩


/-! ## Claim C8 -/

/-- When the requirement range lies inside the 0 to 100 scale, a stress
value that Plant._calculate_stress does return is nonnegative. -/
theorem plantCalculateStress_nonneg (v : ℚ) (r : ℚ × ℚ) (s : ℚ)
    (h1 : 0 ≤ r.1) (h2 : r.2 ≤ 100)
    (hs : plantCalculateStress v r = some s) : 0 ≤ s := by
  unfold plantCalculateStress qdiv? at hs
  split_ifs at hs with hin hlo hz hz
  · cases hs
    exact le_refl 0
  · cases hs
  · simp only [Option.map_some', Option.some_inj] at hs
    subst hs
    have hpos : 0 < r.1 := lt_of_le_of_ne h1 (Ne.symm hz)
    exact le_min zero_le_one (div_pos (by linarith) hpos).le
  · cases hs
  · simp only [Option.map_some', Option.some_inj] at hs
    subst hs
    have hv : r.2 < v := by
      rcases not_and_or.mp hin with hA | hA
      · exact absurd (le_of_not_lt hlo) hA
      · exact lt_of_not_le hA
    have hpos : 0 < 100 - r.2 := by
      rcases lt_or_eq_of_le h2 with hB | hB
      · linarith
      · exact absurd (by rw [hB]; ring) hz
    exact le_min zero_le_one (div_pos (by linarith) hpos).le

/-- One update call keeps health inside the 0 to 100 interval, provided the
water and light requirement ranges of the plant lie inside the 0 to 100
factor scale. -/
theorem PlantState.update_health_bounds (T : Trig)
    (env : EnvironmentalFactors) (rng : StemRng) (p : PlantState)
    (hw1 : 0 ≤ p.definition.environmental_requirements.optimal_water.1)
    (hw2 : p.definition.environmental_requirements.optimal_water.2 ≤ 100)
    (hl1 : 0 ≤ p.definition.environmental_requirements.optimal_light.1)
    (hl2 : p.definition.environmental_requirements.optimal_light.2 ≤ 100)
    (h0 : 0 ≤ p.health) (h1 : p.health ≤ 100) :
    0 ≤ (p.update T env rng).health ∧ (p.update T env rng).health ≤ 100 := by
  simp only [PlantState.update]
  split_ifs with hodd hwith htrig
  · exact ⟨h0, h1⟩
  · refine ⟨le_max_left _ _, ?_⟩
    rw [max_le_iff]
    constructor <;> linarith
  · exact ⟨h0, h1⟩
  · rcases hw : plantCalculateStress env.water_level
        p.definition.environmental_requirements.optimal_water with _ | ws <;>
      rcases hl : plantCalculateStress env.light_level
          p.definition.environmental_requirements.optimal_light with _ | ls
    · exact ⟨h0, h1⟩
    · exact ⟨h0, h1⟩
    · exact ⟨h0, h1⟩
    · have hws : 0 ≤ ws := plantCalculateStress_nonneg _ _ _ hw1 hw2 hw
      have hls : 0 ≤ ls := plantCalculateStress_nonneg _ _ _ hl1 hl2 hl
      have hstress : 0 ≤ max ws ls := le_trans hws (le_max_left _ _)
      dsimp only
      generalize (if max ws ls > 1 / 2 then -(1 / 5) * max ws ls
        else 1 / 10 * (1 - max ws ls)) = c
      have hA0 : (0 : ℚ) ≤ 0 ⊔ 100 ⊓ (p.health + c) := le_max_left _ _
      have hA1 : (0 : ℚ) ⊔ 100 ⊓ (p.health + c) ≤ 100 := by
        rw [max_le_iff]
        exact ⟨by norm_num, min_le_left _ _⟩
      have hs10 : (0 : ℚ) ≤ max ws ls * (1 / 10) :=
        mul_nonneg hstress (by norm_num)
      split_ifs <;>
        refine ⟨?_, ?_⟩ <;>
        first
          | exact hA0
          | exact hA1
          | exact le_max_left _ _
          | (rw [max_le_iff]
             refine ⟨by norm_num, ?_⟩
             dsimp only
             linarith [hA1, hs10])

/-- One update call never changes the plant definition. -/
theorem PlantState.update_definition (T : Trig)
    (env : EnvironmentalFactors) (rng : StemRng) (p : PlantState) :
    (p.update T env rng).definition = p.definition := by
  simp only [PlantState.update]
  split_ifs <;> try rfl
  rcases plantCalculateStress env.water_level
      p.definition.environmental_requirements.optimal_water with _ | ws <;>
    rcases plantCalculateStress env.light_level
        p.definition.environmental_requirements.optimal_light with _ | ls <;>
    first
      | rfl
      | (dsimp only; split_ifs <;> rfl)

/-- Health stays inside the 0 to 100 interval over a whole update
sequence. -/
theorem PlantState.updates_health_bounds (T : Trig)
    (l : List (EnvironmentalFactors × StemRng)) (p : PlantState)
    (hw1 : 0 ≤ p.definition.environmental_requirements.optimal_water.1)
    (hw2 : p.definition.environmental_requirements.optimal_water.2 ≤ 100)
    (hl1 : 0 ≤ p.definition.environmental_requirements.optimal_light.1)
    (hl2 : p.definition.environmental_requirements.optimal_light.2 ≤ 100)
    (h0 : 0 ≤ p.health) (h1 : p.health ≤ 100) :
    0 ≤ (PlantState.updates T l p).health ∧
      (PlantState.updates T l p).health ≤ 100 := by
  induction l generalizing p with
  | nil => exact ⟨h0, h1⟩
  | cons c cs ih =>
    show 0 ≤ (PlantState.updates T cs (p.update T c.1 c.2)).health ∧
      (PlantState.updates T cs (p.update T c.1 c.2)).health ≤ 100
    have hd := PlantState.update_definition T c.1 c.2 p
    have hb := PlantState.update_health_bounds T c.1 c.2 p hw1 hw2 hl1 hl2 h0 h1
    exact ih (p.update T c.1 c.2) (hd ▸ hw1) (hd ▸ hw2) (hd ▸ hl1)
      (hd ▸ hl2) hb.1 hb.2

/-- Claim C8: for every plant whose water and light requirement ranges lie
inside the 0 to 100 factor scale, starting from its initial state, health
remains within the 0 to 100 interval after every sequence of update calls
with arbitrary environment inputs. -/
theorem C8_theorem (T : Trig) (defn : PlantDefinition) (x y sf : ℚ)
    (l : List (EnvironmentalFactors × StemRng))
    (hw1 : 0 ≤ defn.environmental_requirements.optimal_water.1)
    (hw2 : defn.environmental_requirements.optimal_water.2 ≤ 100)
    (hl1 : 0 ≤ defn.environmental_requirements.optimal_light.1)
    (hl2 : defn.environmental_requirements.optimal_light.2 ≤ 100) :
    0 ≤ (PlantState.updates T l (PlantState.init T defn x y sf)).health ∧
      (PlantState.updates T l (PlantState.init T defn x y sf)).health ≤ 100 :=
  PlantState.updates_health_bounds T l (PlantState.init T defn x y sf)
    hw1 hw2 hl1 hl2 (by norm_num [PlantState.init])
    (by norm_num [PlantState.init])

/-- Witness instantiating C8_theorem on the sample plant over one update. -/
theorem C8_witness :
    (0 ≤ defnSample.environmental_requirements.optimal_water.1 ∧
      defnSample.environmental_requirements.optimal_water.2 ≤ 100 ∧
      0 ≤ defnSample.environmental_requirements.optimal_light.1 ∧
      defnSample.environmental_requirements.optimal_light.2 ≤ 100) ∧
    (0 ≤ (PlantState.updates trigSample [(envSample, stemRngSample)]
        (PlantState.init trigSample defnSample 0 0 1)).health ∧
      (PlantState.updates trigSample [(envSample, stemRngSample)]
        (PlantState.init trigSample defnSample 0 0 1)).health ≤ 100) :=
  ⟨⟨by norm_num [defnSample, reqSample2], by norm_num [defnSample, reqSample2],
    by norm_num [defnSample, reqSample2], by norm_num [defnSample, reqSample2]⟩,
    C8_theorem trigSample defnSample 0 0 1 [(envSample, stemRngSample)]
      (by norm_num [defnSample, reqSample2])
      (by norm_num [defnSample, reqSample2])
      (by norm_num [defnSample, reqSample2])
      (by norm_num [defnSample, reqSample2])⟩


/-- Evaluation of one _should_flower call on a record with no bud yet, at
or past its flower time: the bud is initialised at the current age. -/
theorem shouldFlowerStep_start (fc : FloweringCharacteristics) (th : ℚ)
    (rng : FlowerRng) (gr gs : ℚ) (age : ℕ) (d : FlowerData)
    (hgr : ¬ gr < 95 / 100) (hgs : ¬ gs < fc.min_maturity)
    (hsf : d.should_flower = true) (hft : d.flower_time ≤ age)
    (hbs : d.bud_start = none) :
    shouldFlowerStep fc th rng gr gs age (some d) =
      (true, some { d with bud_start := some age, stage := FlowerStage.bud,
                           stage_progress := 0 }) := by
  obtain ⟨sf, ft, be, sz, st, sp, bs⟩ := d
  simp only at hsf hft hbs
  subst hsf hbs
  simp only [shouldFlowerStep]
  rw [if_neg hgr, if_neg hgs]
  rw [if_pos ⟨trivial, hft⟩]
  dsimp only [Option.getD]
  rw [Nat.sub_self]
  norm_num

/-- Evaluation of one _should_flower call on an active bud younger than 100
ticks: the progress advances, the stage stays bud. -/
theorem shouldFlowerStep_bud_stay (fc : FloweringCharacteristics) (th : ℚ)
    (rng : FlowerRng) (gr gs : ℚ) (age b : ℕ) (d : FlowerData)
    (hgr : ¬ gr < 95 / 100) (hgs : ¬ gs < fc.min_maturity)
    (hsf : d.should_flower = true) (hft : d.flower_time ≤ age)
    (hbs : d.bud_start = some b) (hst : d.stage = FlowerStage.bud)
    (hlt : age - b < 100) :
    shouldFlowerStep fc th rng gr gs age (some d) =
      (true, some { d with stage_progress := ((age - b : ℕ) : ℚ) / 100 }) := by
  obtain ⟨sf, ft, be, sz, st, sp, bs⟩ := d
  simp only at hsf hft hbs hst
  subst hsf hbs hst
  simp only [shouldFlowerStep]
  rw [if_neg hgr, if_neg hgs]
  rw [if_pos ⟨trivial, hft⟩]
  dsimp only [Option.getD]
  have hq : ((age - b : ℕ) : ℚ) / 100 < 1 := by
    rw [div_lt_one (by norm_num)]
    exact_mod_cast hlt
  rw [min_eq_right hq.le, if_neg (not_le.mpr hq)]

/-- Evaluation of one _should_flower call on a bud that has reached 100
ticks in stage: transition to opening with progress reset and a fresh stage
start. -/
theorem shouldFlowerStep_bud_trans (fc : FloweringCharacteristics) (th : ℚ)
    (rng : FlowerRng) (gr gs : ℚ) (age b : ℕ) (d : FlowerData)
    (hgr : ¬ gr < 95 / 100) (hgs : ¬ gs < fc.min_maturity)
    (hsf : d.should_flower = true) (hft : d.flower_time ≤ age)
    (hbs : d.bud_start = some b) (hst : d.stage = FlowerStage.bud)
    (hge : 100 ≤ age - b) :
    shouldFlowerStep fc th rng gr gs age (some d) =
      (true, some { d with stage := FlowerStage.opening,
                           stage_progress := 0,
                           bud_start := some age }) := by
  obtain ⟨sf, ft, be, sz, st, sp, bs⟩ := d
  simp only at hsf hft hbs hst
  subst hsf hbs hst
  simp only [shouldFlowerStep]
  rw [if_neg hgr, if_neg hgs]
  rw [if_pos ⟨trivial, hft⟩]
  dsimp only [Option.getD]
  have hq : (1 : ℚ) ≤ ((age - b : ℕ) : ℚ) / 100 := by
    rw [le_div_iff₀ (by norm_num)]
    norm_num
    exact_mod_cast hge
  rw [min_eq_left hq, if_pos le_rfl]

/-- Evaluation of one _should_flower call on an opening flower younger than
150 ticks in stage: the progress advances, the stage stays opening. -/
theorem shouldFlowerStep_opening_stay (fc : FloweringCharacteristics)
    (th : ℚ) (rng : FlowerRng) (gr gs : ℚ) (age b : ℕ) (d : FlowerData)
    (hgr : ¬ gr < 95 / 100) (hgs : ¬ gs < fc.min_maturity)
    (hsf : d.should_flower = true) (hft : d.flower_time ≤ age)
    (hbs : d.bud_start = some b) (hst : d.stage = FlowerStage.opening)
    (hlt : age - b < 150) :
    shouldFlowerStep fc th rng gr gs age (some d) =
      (true, some { d with stage_progress := ((age - b : ℕ) : ℚ) / 150 }) := by
  obtain ⟨sf, ft, be, sz, st, sp, bs⟩ := d
  simp only at hsf hft hbs hst
  subst hsf hbs hst
  simp only [shouldFlowerStep]
  rw [if_neg hgr, if_neg hgs]
  rw [if_pos ⟨trivial, hft⟩]
  dsimp only [Option.getD]
  have hq : ((age - b : ℕ) : ℚ) / 150 < 1 := by
    rw [div_lt_one (by norm_num)]
    exact_mod_cast hlt
  rw [min_eq_right hq.le, if_neg (not_le.mpr hq)]

/-- Evaluation of one _should_flower call on an opening flower that has
reached 150 ticks in stage: transition to bloomed, with the bloom end
scheduled bloom_duration ticks ahead. -/
theorem shouldFlowerStep_opening_trans (fc : FloweringCharacteristics)
    (th : ℚ) (rng : FlowerRng) (gr gs : ℚ) (age b : ℕ) (d : FlowerData)
    (hgr : ¬ gr < 95 / 100) (hgs : ¬ gs < fc.min_maturity)
    (hsf : d.should_flower = true) (hft : d.flower_time ≤ age)
    (hbs : d.bud_start = some b) (hst : d.stage = FlowerStage.opening)
    (hge : 150 ≤ age - b) :
    shouldFlowerStep fc th rng gr gs age (some d) =
      (true, some { d with stage := FlowerStage.bloomed,
                           stage_progress := 0,
                           bud_start := some age,
                           bloom_end := some (age + fc.bloom_duration) }) := by
  obtain ⟨sf, ft, be, sz, st, sp, bs⟩ := d
  simp only at hsf hft hbs hst
  subst hsf hbs hst
  simp only [shouldFlowerStep]
  rw [if_neg hgr, if_neg hgs]
  rw [if_pos ⟨trivial, hft⟩]
  dsimp only [Option.getD]
  have hq : (1 : ℚ) ≤ ((age - b : ℕ) : ℚ) / 150 := by
    rw [le_div_iff₀ (by norm_num)]
    norm_num
    exact_mod_cast hge
  rw [min_eq_left hq, if_pos le_rfl]


/-- Unrolling flowerIter from the last tick instead of the first. -/
theorem flowerIter_succ (fc : FloweringCharacteristics) (th : ℚ)
    (rng : FlowerRng) (gr gs : ℚ) (k : ℕ) :
    ∀ (a : ℕ) (d : Option FlowerData),
      flowerIter fc th rng gr gs a (k + 1) d =
        (shouldFlowerStep fc th rng gr gs (a + k)
          (flowerIter fc th rng gr gs a k d)).2 := by
  induction k with
  | zero => intro a d; rfl
  | succ k ih =>
    intro a d
    show flowerIter fc th rng gr gs (a + 1) (k + 1)
        (shouldFlowerStep fc th rng gr gs a d).2 =
      (shouldFlowerStep fc th rng gr gs (a + (k + 1))
        (flowerIter fc th rng gr gs a (k + 1) d)).2
    rw [ih]
    have : a + 1 + k = a + (k + 1) := by omega
    rw [this]
    rfl

/-- Closed form of the flowering record during one bud-to-bloom run, used
only to state and prove the induction behind claim C5: after the evaluation
at age a0 + t the record is a bud until tick 99, opening from tick 100 to
249, and bloomed at tick 250. -/
def flowerPhase (d : FlowerData) (fc : FloweringCharacteristics)
    (a0 t : ℕ) : FlowerData :=
  if t < 100 then
    { d with bud_start := some a0, stage := FlowerStage.bud,
             stage_progress := (t : ℚ) / 100 }
  else if t < 250 then
    { d with bud_start := some (a0 + 100), stage := FlowerStage.opening,
             stage_progress := ((t : ℚ) - 100) / 150 }
  else
    { d with bud_start := some (a0 + 250), stage := FlowerStage.bloomed,
             stage_progress := 0,
             bloom_end := some (a0 + 250 + fc.bloom_duration) }

/-- Induction behind claim C5: iterated per-tick evaluation of an eligible
record follows the closed form flowerPhase for the first 250 ticks. -/
theorem flowerIter_phase (fc : FloweringCharacteristics) (th : ℚ)
    (rng : FlowerRng) (gr gs : ℚ) (a0 : ℕ) (d : FlowerData)
    (hgr : ¬ gr < 95 / 100) (hgs : ¬ gs < fc.min_maturity)
    (hsf : d.should_flower = true) (hft : d.flower_time ≤ a0)
    (hbs : d.bud_start = none) :
    ∀ t : ℕ, t ≤ 250 →
      flowerIter fc th rng gr gs a0 (t + 1) (some d) =
        some (flowerPhase d fc a0 t) := by
  intro t
  induction t with
  | zero =>
    intro _
    have h0 : flowerIter fc th rng gr gs a0 1 (some d) =
        (shouldFlowerStep fc th rng gr gs (a0 + 0) (some d)).2 :=
      flowerIter_succ fc th rng gr gs 0 a0 (some d)
    rw [h0, shouldFlowerStep_start fc th rng gr gs (a0 + 0) d hgr hgs hsf
      (by omega) hbs]
    simp [flowerPhase]
  | succ t ih =>
    intro ht
    have hih := ih (by omega)
    rw [flowerIter_succ fc th rng gr gs (t + 1) a0 (some d), hih]
    have hsf2 : (flowerPhase d fc a0 t).should_flower = true := by
      unfold flowerPhase
      split_ifs <;> exact hsf
    have hft2 : (flowerPhase d fc a0 t).flower_time ≤ a0 + (t + 1) := by
      unfold flowerPhase
      split_ifs <;> simpa using le_trans hft (by omega)
    rcases lt_or_ge (t + 1) 100 with hc1 | hc1
    · -- still a bud after the next evaluation
      have hphase : flowerPhase d fc a0 t =
          { d with bud_start := some a0, stage := FlowerStage.bud,
                   stage_progress := (t : ℚ) / 100 } := by
        unfold flowerPhase
        rw [if_pos (by omega)]
      rw [hphase] at hsf2 hft2 ⊢
      rw [shouldFlowerStep_bud_stay fc th rng gr gs (a0 + (t + 1)) a0 _
        hgr hgs hsf2 hft2 rfl rfl (by omega)]
      unfold flowerPhase
      rw [if_pos hc1]
      have : ((a0 + (t + 1) - a0 : ℕ) : ℚ) = ((t : ℚ) + 1) := by
        push_cast [Nat.add_sub_cancel_left]
        ring
      simp [this]
    · rcases lt_or_ge (t + 1) 250 with hc2 | hc2
      · rcases Nat.eq_or_lt_of_le hc1 with hc3 | hc3
        · -- transition from bud to opening at tick 100
          have hphase : flowerPhase d fc a0 t =
              { d with bud_start := some a0, stage := FlowerStage.bud,
                       stage_progress := (t : ℚ) / 100 } := by
            unfold flowerPhase
            rw [if_pos (by omega)]
          rw [hphase] at hsf2 hft2 ⊢
          rw [shouldFlowerStep_bud_trans fc th rng gr gs (a0 + (t + 1)) a0 _
            hgr hgs hsf2 hft2 rfl rfl (by omega)]
          unfold flowerPhase
          rw [if_neg (by omega), if_pos (by omega)]
          have h100 : t + 1 = 100 := by omega
          rw [h100]
          norm_num
        · -- still opening
          have hphase : flowerPhase d fc a0 t =
              { d with bud_start := some (a0 + 100),
                       stage := FlowerStage.opening,
                       stage_progress := ((t : ℚ) - 100) / 150 } := by
            unfold flowerPhase
            rw [if_neg (by omega), if_pos (by omega)]
          rw [hphase] at hsf2 hft2 ⊢
          rw [shouldFlowerStep_opening_stay fc th rng gr gs (a0 + (t + 1))
            (a0 + 100) _ hgr hgs hsf2 hft2 rfl rfl (by omega)]
          unfold flowerPhase
          rw [if_neg (by omega), if_pos (by omega)]
          have : ((a0 + (t + 1) - (a0 + 100) : ℕ) : ℚ) =
              ((t : ℚ) + 1) - 100 := by
            have h1 : a0 + (t + 1) - (a0 + 100) = t - 99 := by omega
            rw [h1]
            have h2 : (99 : ℕ) ≤ t := by omega
            push_cast [h2]
            ring
          simp [this]
      · -- transition from opening to bloomed at tick 250
        have h250 : t + 1 = 250 := by omega
        have hphase : flowerPhase d fc a0 t =
            { d with bud_start := some (a0 + 100),
                     stage := FlowerStage.opening,
                     stage_progress := ((t : ℚ) - 100) / 150 } := by
          unfold flowerPhase
          rw [if_neg (by omega), if_pos (by omega)]
        rw [hphase] at hsf2 hft2 ⊢
        rw [shouldFlowerStep_opening_trans fc th rng gr gs (a0 + (t + 1))
          (a0 + 100) _ hgr hgs hsf2 hft2 rfl rfl (by omega)]
        unfold flowerPhase
        rw [if_neg (by omega), if_neg (by omega)]
        rw [h250]


/-! ## Claim C5 -/

/-- Claim C5: for an eligible branch (growth at least 0.95, plant maturity
at least min_maturity, should_flower true, flower_time at or before the
first evaluation age), evaluated once per tick with age advancing by 1,
the record stays in stage bud for exactly the first 100 ticks, is in stage
opening from tick 100 up to tick 249, has progress reset to 0 at the tick
100 transition, and is bloomed with progress 0 exactly 250 ticks after
first eligibility. -/
theorem C5_theorem (fc : FloweringCharacteristics) (th : ℚ) (rng : FlowerRng)
    (gr gs : ℚ) (a0 : ℕ) (d : FlowerData)
    (hgr : ¬ gr < 95 / 100) (hgs : ¬ gs < fc.min_maturity)
    (hsf : d.should_flower = true) (hft : d.flower_time ≤ a0)
    (hbs : d.bud_start = none) :
    (∀ t : ℕ, t < 100 →
      (flowerIter fc th rng gr gs a0 (t + 1) (some d)).map FlowerData.stage =
        some FlowerStage.bud) ∧
    (∀ t : ℕ, 100 ≤ t → t < 250 →
      (flowerIter fc th rng gr gs a0 (t + 1) (some d)).map FlowerData.stage =
        some FlowerStage.opening) ∧
    (flowerIter fc th rng gr gs a0 101 (some d)).map
        FlowerData.stage_progress = some 0 ∧
    (flowerIter fc th rng gr gs a0 251 (some d)).map FlowerData.stage =
      some FlowerStage.bloomed ∧
    (flowerIter fc th rng gr gs a0 251 (some d)).map
        FlowerData.stage_progress = some 0 := by
  have key := flowerIter_phase fc th rng gr gs a0 d hgr hgs hsf hft hbs
  refine ⟨?_, ?_, ?_, ?_, ?_⟩
  · intro t htl
    rw [key t (by omega)]
    unfold flowerPhase
    rw [if_pos htl]
    rfl
  · intro t h1 h2
    rw [key t (by omega)]
    unfold flowerPhase
    rw [if_neg (by omega), if_pos h2]
    rfl
  · rw [show (101 : ℕ) = 100 + 1 from rfl, key 100 (by omega)]
    unfold flowerPhase
    rw [if_neg (by omega), if_pos (by omega)]
    simp only [Option.map_some']
    norm_num
  · rw [show (251 : ℕ) = 250 + 1 from rfl, key 250 (by omega)]
    unfold flowerPhase
    rw [if_neg (by omega), if_neg (by omega)]
    rfl
  · rw [show (251 : ℕ) = 250 + 1 from rfl, key 250 (by omega)]
    unfold flowerPhase
    rw [if_neg (by omega), if_neg (by omega)]
    rfl

/-- Sample eligible flower record with no bud yet. -/
def dBudSample : FlowerData :=
  ⟨true, 0, none, 1, FlowerStage.bud, 0, none⟩

/-- Sample flower random oracle. -/
def frngSample : FlowerRng := ⟨0, 100, 0, 1, 300⟩

/-- Witness instantiating C5_theorem on a concrete eligible record: after
251 per-tick evaluations starting at age 0 the stage is bloomed. -/
theorem C5_witness :
    (¬ (1 : ℚ) < 95 / 100) ∧
    (¬ (4 / 5 : ℚ) < fcSample.min_maturity) ∧
    dBudSample.should_flower = true ∧
    dBudSample.flower_time ≤ 0 ∧
    dBudSample.bud_start = none ∧
    (flowerIter fcSample 1 frngSample 1 (4 / 5) 0 251
        (some dBudSample)).map FlowerData.stage = some FlowerStage.bloomed :=
  ⟨by norm_num, by norm_num [fcSample], rfl, by norm_num [dBudSample], rfl,
    (C5_theorem fcSample 1 frngSample 1 (4 / 5) 0 dBudSample (by norm_num)
      (by norm_num [fcSample]) rfl (by norm_num [dBudSample]) rfl).2.2.2.1⟩

/-! ## Claim C6 -/

/-- Claim C6 amended, step form: when an eligible withering record has
spent at least 100 ticks in stage, the evaluation reports not-flowering for
that tick in both outcomes; with wither_roll below 0.3 the record is
rescheduled (flower_time set to age plus the drawn delay and the bud start
cleared), and otherwise the record is left in the completed withering stage
unchanged, so the completion check repeats on the next tick. -/
theorem C6_theorem (fc : FloweringCharacteristics) (th : ℚ) (rng : FlowerRng)
    (gr gs : ℚ) (age b : ℕ) (d : FlowerData)
    (hgr : ¬ gr < 95 / 100) (hgs : ¬ gs < fc.min_maturity)
    (hsf : d.should_flower = true) (hft : d.flower_time ≤ age)
    (hbs : d.bud_start = some b) (hst : d.stage = FlowerStage.withering)
    (htime : 100 ≤ age - b) :
    (rng.wither_roll < 3 / 10 →
      shouldFlowerStep fc th rng gr gs age (some d) =
        (false, some { d with stage_progress := 1,
                              flower_time := age + rng.wither_delay,
                              bud_start := none })) ∧
    (¬ rng.wither_roll < 3 / 10 →
      shouldFlowerStep fc th rng gr gs age (some d) =
        (false, some { d with stage_progress := 1 })) := by
  obtain ⟨sf, ft, be, sz, st, sp, bs⟩ := d
  simp only at hsf hft hbs hst
  subst hsf hbs hst
  simp only [shouldFlowerStep]
  rw [if_neg hgr, if_neg hgs]
  rw [if_pos ⟨trivial, hft⟩]
  dsimp only [Option.getD]
  have hq : (1 : ℚ) ≤ ((age - b : ℕ) : ℚ) / 100 := by
    rw [le_div_iff₀ (by norm_num)]
    norm_num
    exact_mod_cast htime
  rw [min_eq_left hq, if_pos le_rfl]
  constructor
  · intro hroll
    rw [if_pos hroll]
  · intro hroll
    rw [if_neg hroll]

/-- Sample flower record in the withering stage with its 100 stage ticks
already elapsed at age 100. -/
def dWitherSample : FlowerData :=
  ⟨true, 0, some 0, 1, FlowerStage.withering, 1, some 0⟩

/-- Flower oracle whose wither roll 1/2 takes the non-reschedule outcome. -/
def frngKeep : FlowerRng := ⟨0, 0, 0, 1 / 2, 300⟩

/-- Flower oracle whose wither roll 0 takes the reschedule outcome, with
delay draw 300. -/
def frngResched : FlowerRng := ⟨0, 0, 0, 0, 300⟩

/-- Record produced by the reschedule outcome at age 101 with delay 300. -/
def dReschedSample : FlowerData :=
  ⟨true, 401, some 0, 1, FlowerStage.withering, 1, none⟩

/-- Claim C6 as stated is false on its permanence half: at age 100 the
withering record completes and the non-reschedule outcome is taken (the
call returns false and leaves the record in the completed withering stage),
yet at age 101 the completion check runs again and this time reschedules,
and at age 401 the branch flowers again (the call returns true). -/
theorem C6_counterexample :
    shouldFlowerStep fcSample 1 frngKeep 1 1 100 (some dWitherSample) =
      (false, some dWitherSample) ∧
    (shouldFlowerStep fcSample 1 frngResched 1 1 101
        (some dWitherSample)).2 = some dReschedSample ∧
    (shouldFlowerStep fcSample 1 frngResched 1 1 401
        (some dReschedSample)).1 = true := by
  refine ⟨?_, ?_, ?_⟩ <;>
    norm_num [shouldFlowerStep, fcSample, dWitherSample, frngKeep,
      frngResched, dReschedSample]

/-- Witness instantiating C6_theorem on the sample withering record with
the non-reschedule roll. -/
theorem C6_witness :
    (¬ (1 : ℚ) < 95 / 100) ∧
    (¬ (1 : ℚ) < fcSample.min_maturity) ∧
    dWitherSample.should_flower = true ∧
    dWitherSample.flower_time ≤ 100 ∧
    dWitherSample.bud_start = some 0 ∧
    dWitherSample.stage = FlowerStage.withering ∧
    100 ≤ 100 - 0 ∧
    (¬ frngKeep.wither_roll < 3 / 10) ∧
    shouldFlowerStep fcSample 1 frngKeep 1 1 100 (some dWitherSample) =
      (false, some { dWitherSample with stage_progress := 1 }) :=
  ⟨by norm_num, by norm_num [fcSample], rfl, by norm_num [dWitherSample],
    rfl, rfl, by norm_num, by norm_num [frngKeep],
    (C6_theorem fcSample 1 frngKeep 1 1 100 0 dWitherSample (by norm_num)
      (by norm_num [fcSample]) rfl (by norm_num [dWitherSample]) rfl rfl
      (by norm_num)).2 (by norm_num [frngKeep])⟩

end FractalGarden
